import Mathlib

/-!
Verification of the textCAD constraint-solver core (Rust) against its
natural-language specification, via a shallow embedding in Lean 4.

The embedding follows the source files `src/sketch.rs`, `src/solution.rs`,
`src/entities/{point,line,circle}.rs`, `src/constraints/{basic,line,circle,parametric}.rs`,
`src/constraint.rs`, `src/error.rs` and `src/units.rs`.

Modelling conventions:
- Z3 `Real` terms are represented syntactically by `RealExpr` (a variable is
  identified by the name string passed to `Real::new_const`); solver assertions
  are `Formula` values, and the Z3 solver state is the list of asserted formulas.
- The external solver's satisfiability check is an explicit function parameter
  `check : List Formula → SatResult`; theorems about solver-dependent outcomes
  assume only soundness/decisiveness of `check` on the concrete assertion list.
- `f64` values are modelled as exact rationals (`ℚ`). All concrete numeric
  inputs used in witnesses and counterexamples are exactly representable in
  `f64` and all the `f64` operations applied to them there are exact, so the
  model and the code agree on those inputs. Rust's saturating truncating
  `as i32` cast on floats is modelled by `f64_as_i32`, and `f64::round`
  (round half away from zero) by `f64_round`.
- The `generational_arena::Arena` allocation pattern used by `Sketch` never
  frees slots, so insertions take slot indices 0,1,2,... all with generation 0.
-/

set_option maxRecDepth 8192

namespace TextCad

/-- Identifier payload mirroring `generational_arena::Index`: a slot index plus
a generation counter. -/
structure Index where
  idx : Nat
  gen : Nat
deriving DecidableEq

/-- Strongly-typed identifier for `Point2D` entities (`entities/point.rs`). -/
structure PointId where
  index : Index
deriving DecidableEq

/-- Strongly-typed identifier for `Line` entities (`entity.rs`). -/
structure LineId where
  index : Index
deriving DecidableEq

/-- Strongly-typed identifier for `Circle` entities (`entity.rs`). -/
structure CircleId where
  index : Index
deriving DecidableEq

/-- Debug rendering of `generational_arena::Index` as produced by Rust's
derived `Debug` implementation, used inside error messages. -/
def Index.debugStr (i : Index) : String :=
  "Index \x7b index: " ++ Nat.repr i.idx ++ ", generation: " ++ Nat.repr i.gen ++ " \x7d"

/-- Debug rendering of `PointId` (a tuple struct wrapping `Index`). -/
def PointId.debugStr (p : PointId) : String :=
  "PointId(" ++ p.index.debugStr ++ ")"

/-- Debug rendering of `LineId`. -/
def LineId.debugStr (l : LineId) : String :=
  "LineId(" ++ l.index.debugStr ++ ")"

/-- Debug rendering of `CircleId`. -/
def CircleId.debugStr (c : CircleId) : String :=
  "CircleId(" ++ c.index.debugStr ++ ")"

/-- Syntactic Z3 real-arithmetic terms as built by the constraint code:
variables (`Real::new_const`), rational literals (`Real::from_real`), and the
`add`/`sub`/`mul` operators used on `z3::ast::Real`. -/
inductive RealExpr where
  | var (name : String)
  | ratLit (num : Int) (den : Int)
  | add (a b : RealExpr)
  | sub (a b : RealExpr)
  | mul (a b : RealExpr)
deriving DecidableEq

/-- Atomic formulas asserted on the Z3 solver: `_eq`, `ge` and `le` on reals. -/
inductive Formula where
  | eq (a b : RealExpr)
  | ge (a b : RealExpr)
  | le (a b : RealExpr)
deriving DecidableEq

/-- Evaluation of a term under an assignment of the named unknowns. -/
def evalExpr (env : String → ℚ) : RealExpr → ℚ
  | .var n => env n
  | .ratLit num den => (num : ℚ) / (den : ℚ)
  | .add a b => evalExpr env a + evalExpr env b
  | .sub a b => evalExpr env a - evalExpr env b
  | .mul a b => evalExpr env a * evalExpr env b

/-- Satisfaction of one asserted formula under an assignment. -/
def holds (env : String → ℚ) : Formula → Prop
  | .eq a b => evalExpr env a = evalExpr env b
  | .ge a b => evalExpr env a ≥ evalExpr env b
  | .le a b => evalExpr env a ≤ evalExpr env b

/-- Satisfaction of a whole assertion list. -/
def satisfies (env : String → ℚ) (l : List Formula) : Prop :=
  ∀ f ∈ l, holds env f

/-- Satisfiability of an assertion list. -/
def Satisfiable (l : List Formula) : Prop :=
  ∃ env, satisfies env l

/-- Tri-state result of the external solver's check (`z3::SatResult`). -/
inductive SatResult where
  | sat
  | unsat
  | unknown
deriving DecidableEq

/-- Error taxonomy mirroring `TextCadError` in `error.rs`. -/
inductive TextCadError where
  | solverError (msg : String)
  | invalidConstraint (msg : String)
  | entityError (msg : String)
  | overConstrained
  | underConstrained
  | solutionError (msg : String)
  | exportError (msg : String)
  | invalidParameter (msg : String)
deriving DecidableEq

/-- Length value type from `units.rs`: a scalar stored in meters (`f64`,
modelled as an exact rational). -/
structure Length where
  meters : ℚ
deriving DecidableEq

/-- `Length::to_meters` from `units.rs`. -/
def Length.to_meters (l : Length) : ℚ := l.meters

/-- Truncation of a rational toward zero, as performed by Rust's float-to-int
`as` cast before saturation. -/
def ratTrunc (q : ℚ) : Int := q.num.tdiv q.den

/-- Saturation of an integer into the `i32` range. -/
def clampI32 (n : Int) : Int := max (-2147483648) (min 2147483647 n)

/-- Model of the Rust expression `x as i32` for `x : f64`: truncate toward
zero, then saturate to the `i32` bounds. -/
def f64_as_i32 (q : ℚ) : Int := clampI32 (ratTrunc q)

/-- Model of `f64::round`: round half away from zero, yielding an integer. -/
def f64_round (q : ℚ) : Int :=
  if 0 ≤ q then ratTrunc (q + 1/2) else ratTrunc (q - 1/2)

/-- Point entity from `entities/point.rs`: the `x`/`y` fields hold the names
of the two Z3 `Real` unknowns created for the point. -/
structure Point2D where
  id : PointId
  x : String
  y : String
  name : Option String
deriving DecidableEq

/-- `Point2D::new`: derives the unknowns' names from the optional display
name, falling back to the fixed base name "p". -/
def Point2D.new (id : PointId) (name : Option String) : Point2D :=
  let base_name := name.getD "p"
  { id := id, x := base_name ++ "_x", y := base_name ++ "_y", name := name }

/-- `Point2D::display_name`. -/
def Point2D.display_name (p : Point2D) : String :=
  p.name.getD ("Point" ++ p.id.index.debugStr)

/-- Line entity from `entities/line.rs`: references two endpoint `PointId`s
and stores no coordinates. The Rust field `end` is rendered `endp` because
`end` is a Lean keyword. -/
structure Line where
  id : LineId
  start : PointId
  endp : PointId
  name : Option String
deriving DecidableEq

/-- `Line::new`. -/
def Line.new (id : LineId) (start endp : PointId) (name : Option String) : Line :=
  { id := id, start := start, endp := endp, name := name }

/-- Circle entity from `entities/circle.rs`: a center `PointId` plus the name
of one symbolic radius unknown. -/
structure Circle where
  id : CircleId
  center : PointId
  radius : String
  name : Option String
deriving DecidableEq

/-- `Circle::new`: derives the radius unknown's name from the optional display
name, falling back to the fixed base name "c". -/
def Circle.new (id : CircleId) (center : PointId) (name : Option String) : Circle :=
  let base_name := name.getD "c"
  { id := id, center := center, radius := base_name ++ "_radius", name := name }

/-- Concrete constraint kinds of the catalog (`constraints/{basic,line,circle,parametric}.rs`),
represented as a closed tagged variant as suggested by the spec's design notes. -/
inductive Constr where
  | coincidentPoints (point1 point2 : PointId)
  | fixedPosition (point : PointId) (x y : Length)
  | lineLength (line : LineId) (length : Length)
  | parallelLines (line1 line2 : LineId)
  | perpendicularLines (line1 line2 : LineId)
  | pointOnLine (line : LineId) (point : PointId)
  | circleRadius (circle : CircleId) (radius : Length)
deriving DecidableEq

/-- Sketch state (`sketch.rs`): arenas of entities, the ordered constraint
list, and the Z3 solver's accumulated assertion list. The `circles` arena is
modelled from the spec (see `Sketch.add_circle`). -/
structure Sketch where
  points : List Point2D
  lines : List Line
  circles : List Circle
  constraints : List Constr
  assertions : List Formula

/-- `Sketch::new`: empty arenas, no constraints, fresh solver. -/
def Sketch.empty : Sketch :=
  { points := [], lines := [], circles := [], constraints := [], assertions := [] }

/-- `Sketch::add_point`: inserts a `Point2D` built by `Point2D::new` at the
next arena slot and returns its identifier. -/
def Sketch.add_point (s : Sketch) (name : Option String) : Sketch × PointId :=
  let id : PointId := ⟨⟨s.points.length, 0⟩⟩
  ({ s with points := s.points ++ [Point2D.new id name] }, id)

/-- `Sketch::get_point`: arena lookup with generation check (modelled by
comparing the stored identifier with the requested one). -/
def Sketch.get_point (s : Sketch) (id : PointId) : Option Point2D :=
  match s.points[id.index.idx]? with
  | some p => if p.id = id then some p else none
  | none => none

/-- `Sketch::add_line`. -/
def Sketch.add_line (s : Sketch) (start endp : PointId) (name : Option String) :
    Sketch × LineId :=
  let id : LineId := ⟨⟨s.lines.length, 0⟩⟩
  ({ s with lines := s.lines ++ [Line.new id start endp name] }, id)

/-- `Sketch::get_line`. -/
def Sketch.get_line (s : Sketch) (id : LineId) : Option Line :=
  match s.lines[id.index.idx]? with
  | some l => if l.id = id then some l else none
  | none => none

/-- Modelled from the spec: `add_circle(center, name?) -> CircleId`. The
`Sketch` circle arena and this method are exercised by the repository's tests,
demos and the `CircleRadiusConstraint`, but the method body is not among the
provided sources; it is modelled after the spec's "analogous" clause following
the `add_point`/`add_line` pattern, with the entity built by the in-source
`Circle::new`. -/
def Sketch.add_circle (s : Sketch) (center : PointId) (name : Option String) :
    Sketch × CircleId :=
  let id : CircleId := ⟨⟨s.circles.length, 0⟩⟩
  ({ s with circles := s.circles ++ [Circle.new id center name] }, id)

/-- Modelled from the spec: `get_circle(id) -> Option<Circle>`, the O(1)
arena lookup analogous to `get_point`/`get_line`. -/
def Sketch.get_circle (s : Sketch) (id : CircleId) : Option Circle :=
  match s.circles[id.index.idx]? with
  | some c => if c.id = id then some c else none
  | none => none

/-- `SketchQuery::point_variables` as implemented by `Sketch` in `sketch.rs`. -/
def Sketch.point_variables (s : Sketch) (point_id : PointId) :
    Except TextCadError (RealExpr × RealExpr) :=
  match s.get_point point_id with
  | some p => .ok (.var p.x, .var p.y)
  | none => .error (.entityError ("Point " ++ point_id.debugStr ++ " not found"))

/-- `SketchQuery::line_endpoints` as implemented by `Sketch`. -/
def Sketch.line_endpoints (s : Sketch) (line_id : LineId) :
    Except TextCadError (PointId × PointId) :=
  match s.get_line line_id with
  | some l => .ok (l.start, l.endp)
  | none => .error (.entityError ("Line " ++ line_id.debugStr ++ " not found"))

/-- Modelled from the spec: the `SketchQuery::circle_center_and_radius`
implementation on `Sketch` (the trait method is declared in `constraint.rs`
and consumed by `CircleRadiusConstraint`, but the `Sketch` implementation is
not among the provided sources); it answers with the stored circle's center
identifier and radius unknown, or an `EntityError` naming the identifier. -/
def Sketch.circle_center_and_radius (s : Sketch) (circle_id : CircleId) :
    Except TextCadError (PointId × RealExpr) :=
  match s.get_circle circle_id with
  | some c => .ok (c.center, .var c.radius)
  | none => .error (.entityError ("Circle " ++ circle_id.debugStr ++ " not found"))

/-- `Sketch::add_constraint`: pure accumulation at the end of the list. -/
def Sketch.add_constraint (s : Sketch) (c : Constr) : Sketch :=
  { s with constraints := s.constraints ++ [c] }

/-- Helper modelling the `map_err(|_| EntityError(msg))` wrapping every
constraint applies to its entity lookups. -/
def mapErrTo {α : Type} (e : Except TextCadError α) (msg : String) :
    Except TextCadError α :=
  match e with
  | .ok a => .ok a
  | .error _ => .error (.entityError msg)

/-- Name of the internal parameter introduced by `PointOnLineConstraint::apply`:
built with `format!("t_line_{}_point_{}", line.into_raw_parts().0,
point.into_raw_parts().0)`, i.e. from the slot-index components of the two
identifiers. -/
def tName (lineIdx pointIdx : Nat) : String :=
  "t_line_" ++ Nat.repr lineIdx ++ "_point_" ++ Nat.repr pointIdx

/-- `Constraint::apply` for each catalog kind: performs the entity lookups in
source order and returns the list of formulas asserted on the solver, or the
first lookup error. Within a single constraint all lookups precede all
assertions (as in the source), so a failing constraint asserts nothing. -/
def applyConstraint (s : Sketch) : Constr → Except TextCadError (List Formula)
  | .coincidentPoints p1 p2 =>
    match mapErrTo (s.point_variables p1) ("Point " ++ p1.debugStr ++ " not found") with
    | .error e => .error e
    | .ok (x1, y1) =>
      match mapErrTo (s.point_variables p2) ("Point " ++ p2.debugStr ++ " not found") with
      | .error e => .error e
      | .ok (x2, y2) => .ok [.eq x1 x2, .eq y1 y2]
  | .fixedPosition p x y =>
    match mapErrTo (s.point_variables p) ("Point " ++ p.debugStr ++ " not found") with
    | .error e => .error e
    | .ok (px, py) =>
      .ok [.eq px (.ratLit (f64_as_i32 (x.to_meters * 1000000)) 1000000),
           .eq py (.ratLit (f64_as_i32 (y.to_meters * 1000000)) 1000000)]
  | .lineLength line length =>
    match mapErrTo (s.line_endpoints line) ("Line " ++ line.debugStr ++ " not found") with
    | .error e => .error e
    | .ok (start_id, end_id) =>
      match mapErrTo (s.point_variables start_id)
          ("Start point " ++ start_id.debugStr ++ " not found") with
      | .error e => .error e
      | .ok (x1, y1) =>
        match mapErrTo (s.point_variables end_id)
            ("End point " ++ end_id.debugStr ++ " not found") with
        | .error e => .error e
        | .ok (x2, y2) =>
          let dx := RealExpr.sub x2 x1
          let dy := RealExpr.sub y2 y1
          let dist_sq := RealExpr.add (.mul dx dx) (.mul dy dy)
          let target_meters := length.to_meters
          let target_sq := target_meters * target_meters
          .ok [.eq dist_sq (.ratLit (f64_as_i32 (target_sq * 1000000)) 1000000)]
  | .parallelLines l1 l2 =>
    match mapErrTo (s.line_endpoints l1) ("Line " ++ l1.debugStr ++ " not found") with
    | .error e => .error e
    | .ok (start1, end1) =>
      match mapErrTo (s.line_endpoints l2) ("Line " ++ l2.debugStr ++ " not found") with
      | .error e => .error e
      | .ok (start2, end2) =>
        match mapErrTo (s.point_variables start1)
            ("Start point " ++ start1.debugStr ++ " of line1 not found") with
        | .error e => .error e
        | .ok (x1s, y1s) =>
          match mapErrTo (s.point_variables end1)
              ("End point " ++ end1.debugStr ++ " of line1 not found") with
          | .error e => .error e
          | .ok (x1e, y1e) =>
            match mapErrTo (s.point_variables start2)
                ("Start point " ++ start2.debugStr ++ " of line2 not found") with
            | .error e => .error e
            | .ok (x2s, y2s) =>
              match mapErrTo (s.point_variables end2)
                  ("End point " ++ end2.debugStr ++ " of line2 not found") with
              | .error e => .error e
              | .ok (x2e, y2e) =>
                let dx1 := RealExpr.sub x1e x1s
                let dy1 := RealExpr.sub y1e y1s
                let dx2 := RealExpr.sub x2e x2s
                let dy2 := RealExpr.sub y2e y2s
                .ok [.eq (.sub (.mul dx1 dy2) (.mul dy1 dx2)) (.ratLit 0 1)]
  | .perpendicularLines l1 l2 =>
    match mapErrTo (s.line_endpoints l1) ("Line " ++ l1.debugStr ++ " not found") with
    | .error e => .error e
    | .ok (start1, end1) =>
      match mapErrTo (s.line_endpoints l2) ("Line " ++ l2.debugStr ++ " not found") with
      | .error e => .error e
      | .ok (start2, end2) =>
        match mapErrTo (s.point_variables start1)
            ("Start point " ++ start1.debugStr ++ " of line1 not found") with
        | .error e => .error e
        | .ok (x1s, y1s) =>
          match mapErrTo (s.point_variables end1)
              ("End point " ++ end1.debugStr ++ " of line1 not found") with
          | .error e => .error e
          | .ok (x1e, y1e) =>
            match mapErrTo (s.point_variables start2)
                ("Start point " ++ start2.debugStr ++ " of line2 not found") with
            | .error e => .error e
            | .ok (x2s, y2s) =>
              match mapErrTo (s.point_variables end2)
                  ("End point " ++ end2.debugStr ++ " of line2 not found") with
              | .error e => .error e
              | .ok (x2e, y2e) =>
                let dx1 := RealExpr.sub x1e x1s
                let dy1 := RealExpr.sub y1e y1s
                let dx2 := RealExpr.sub x2e x2s
                let dy2 := RealExpr.sub y2e y2s
                .ok [.eq (.add (.mul dx1 dx2) (.mul dy1 dy2)) (.ratLit 0 1)]
  | .pointOnLine line point =>
    match mapErrTo (s.line_endpoints line) ("Line " ++ line.debugStr ++ " not found") with
    | .error e => .error e
    | .ok (start_id, end_id) =>
      match mapErrTo (s.point_variables point)
          ("Point " ++ point.debugStr ++ " not found") with
      | .error e => .error e
      | .ok (px, py) =>
        match mapErrTo (s.point_variables start_id)
            ("Line start point " ++ start_id.debugStr ++ " not found") with
        | .error e => .error e
        | .ok (p1x, p1y) =>
          match mapErrTo (s.point_variables end_id)
              ("Line end point " ++ end_id.debugStr ++ " not found") with
          | .error e => .error e
          | .ok (p2x, p2y) =>
            let t := RealExpr.var (tName line.index.idx point.index.idx)
            let dx := RealExpr.sub p2x p1x
            let dy := RealExpr.sub p2y p1y
            let point_x := RealExpr.add p1x (.mul t dx)
            let point_y := RealExpr.add p1y (.mul t dy)
            .ok [.eq px point_x, .eq py point_y,
                 .ge t (.ratLit 0 1), .le t (.ratLit 1 1)]
  | .circleRadius cid radius =>
    match mapErrTo (s.circle_center_and_radius cid)
        ("Circle " ++ cid.debugStr ++ " not found") with
    | .error e => .error e
    | .ok rv =>
      .ok [.eq rv.2 (.ratLit (clampI32 (f64_round (radius.to_meters * 10000))) 10000)]

/-- Loop of `Sketch::solve_constraints` over the accumulated constraints: in
insertion order, each constraint's formulas are appended to the solver; the
first failing constraint stops the loop and reports its error (the formulas
already asserted stay asserted — no rollback). -/
def applyLoop (s : Sketch) : List Constr → List Formula → List Formula × Option TextCadError
  | [], acc => (acc, none)
  | c :: rest, acc =>
    match applyConstraint s c with
    | .error e => (acc, some e)
    | .ok fs => applyLoop s rest (acc ++ fs)

/-- `Sketch::solve`: one check of the external solver on the accumulated
assertions, with the tri-state result mapped as in `sketch.rs`. -/
def Sketch.solve (check : List Formula → SatResult) (s : Sketch) :
    Sketch × Except TextCadError SatResult :=
  match check s.assertions with
  | .sat => (s, .ok .sat)
  | .unsat => (s, .error .overConstrained)
  | .unknown => (s, .error (.solverError "Z3 solver returned unknown result"))

/-- `Sketch::solve_constraints`: apply all constraints, then solve. -/
def Sketch.solve_constraints (check : List Formula → SatResult) (s : Sketch) :
    Sketch × Except TextCadError SatResult :=
  let r := applyLoop s s.constraints []
  let s' := { s with assertions := s.assertions ++ r.1 }
  match r.2 with
  | some e => (s', .error e)
  | none => s'.solve check

/-- Value of a model evaluation (`model.eval(var, true)` followed by the sort
and numeral inspections in `rational_to_f64_enhanced`): a `Real` rational
numeral with its numerator/denominator (`i64` in the Rust bindings), a `Real`
that is not a rational numeral, or an AST of a different sort. -/
inductive Z3Val where
  | realNumeral (num den : Int)
  | realOther
  | nonReal
deriving DecidableEq

/-- Z3 model handed to the `Solution`: a fixed assignment queried by variable
name; `none` models a failing `model.eval`. -/
structure Z3Model where
  eval : String → Option Z3Val

/-- Threshold check for the non-fatal precision warning in
`rational_to_f64_enhanced`: a small denominator combined with a large
numerator. -/
def precision_warning (num den : Int) : Bool :=
  den.natAbs < 1000 && num.natAbs > 1000000000

/-- Finiteness of the `f64` quotient `num as f64 / den as f64`, modelled on
the exact rational value: the absolute quotient stays below the `f64`
overflow threshold `2^1024`, phrased as the equivalent integer inequality
on `|num|` and `2^1024 * |den|` (for the `i64` numerators and denominators
the Z3 bindings produce, the quotient is always finite). -/
def f64_div_finite (num den : Int) : Bool :=
  decide (num.natAbs < 2 ^ 1024 * den.natAbs)

/-- Rust `Display` rendering of the non-finite `f64` quotient, used only in
the corresponding error message. -/
def nonfiniteDisplay (num den : Int) : String :=
  if 0 ≤ (num : ℚ) / (den : ℚ) then "inf" else "-inf"

/-- `rational_to_f64_enhanced` from `solution.rs`: converts a model value to a
float with error context `ctx`. The returned `Bool` records whether the
non-fatal precision warning was printed to stderr. -/
def rational_to_f64_enhanced (v : Z3Val) (ctx : String) :
    Except TextCadError ℚ × Bool :=
  match v with
  | .realNumeral num den =>
    if den = 0 then
      (.error (.solutionError ("Division by zero in " ++ ctx ++ " rational: " ++
        Int.repr num ++ "/" ++ Int.repr den)), false)
    else if !f64_div_finite num den then
      (.error (.solutionError ("Non-finite result in " ++ ctx ++ " conversion: " ++
        Int.repr num ++ "/" ++ Int.repr den ++ " = " ++ nonfiniteDisplay num den)), false)
    else
      (.ok ((num : ℚ) / (den : ℚ)), precision_warning num den)
  | .realOther =>
    (.error (.solutionError ("Failed to extract rational value for " ++ ctx ++
      ": AST does not contain rational")), false)
  | .nonReal =>
    (.error (.solutionError ("AST is not a real number for " ++ ctx)), false)

/-- `rational_to_f64`: the basic conversion delegating to the enhanced one
with context "coordinate". -/
def rational_to_f64 (v : Z3Val) : Except TextCadError ℚ × Bool :=
  rational_to_f64_enhanced v "coordinate"

/-- Line parameters extracted for a line entity (`solution.rs`). -/
structure LineParameters where
  start : ℚ × ℚ
  endp : ℚ × ℚ
  length : ℚ
  angle : ℚ
deriving DecidableEq

/-- Circle parameters extracted for a circle entity (`solution.rs`). -/
structure CircleParameters where
  center : ℚ × ℚ
  radius : ℚ
  circumference : ℚ
  area : ℚ
deriving DecidableEq

/-- Exact rational value of the `f64` constant `std::f64::consts::PI`. -/
def f64_pi : ℚ := 884279719003555 / 281474976710656

/-- Association-list lookup standing in for `HashMap::get`. -/
def findEntry {κ α : Type} [DecidableEq κ] (l : List (κ × α)) (k : κ) : Option α :=
  match l with
  | [] => none
  | e :: rest => if e.1 = k then some e.2 else findEntry rest k

/-- Solution state from `solution.rs`: the model plus the four caches. The
extra `evalCount` field instruments the embedding by counting `model.eval`
calls, making "does not re-evaluate the model" directly expressible. -/
structure Solution where
  model : Z3Model
  point_coords : List (PointId × (ℚ × ℚ))
  line_params : List (LineId × LineParameters)
  circle_params : List (CircleId × CircleParameters)
  parameter_vars : List (String × ℚ)
  evalCount : Nat

/-- `Solution::new`: wraps the model with empty caches. -/
def Solution.new (m : Z3Model) : Solution :=
  { model := m, point_coords := [], line_params := [], circle_params := [],
    parameter_vars := [], evalCount := 0 }

/-- `Solution::extract_point_coordinates`: returns the cached pair when
present; otherwise evaluates the two variables in the model, converts them,
caches the pair and returns it. The state is returned alongside the result
(the Rust method mutates `self`). -/
def Solution.extract_point_coordinates (sol : Solution) (point_id : PointId)
    (x_var y_var : String) : Except TextCadError (ℚ × ℚ) × Solution :=
  match findEntry sol.point_coords point_id with
  | some coords => (.ok coords, sol)
  | none =>
    match sol.model.eval x_var with
    | none => (.error (.solutionError "Failed to evaluate x coordinate"),
               { sol with evalCount := sol.evalCount + 1 })
    | some xv =>
      match sol.model.eval y_var with
      | none => (.error (.solutionError "Failed to evaluate y coordinate"),
                 { sol with evalCount := sol.evalCount + 2 })
      | some yv =>
        let sol2 := { sol with evalCount := sol.evalCount + 2 }
        match (rational_to_f64 xv).1 with
        | .error e => (.error e, sol2)
        | .ok x =>
          match (rational_to_f64 yv).1 with
          | .error e => (.error e, sol2)
          | .ok y =>
            (.ok (x, y), { sol2 with point_coords := (point_id, (x, y)) :: sol2.point_coords })

/-- `Solution::get_point_coordinates`: cached read only. -/
def Solution.get_point_coordinates (sol : Solution) (point_id : PointId) :
    Except TextCadError (ℚ × ℚ) :=
  match findEntry sol.point_coords point_id with
  | some coords => .ok coords
  | none => .error (.solutionError
      ("Point " ++ point_id.debugStr ++ " coordinates not extracted"))

/-- `Solution::extract_parameter`: cache-once extraction of a named parameter
variable via the enhanced conversion. -/
def Solution.extract_parameter (sol : Solution) (var_name : String)
    (param_var : String) : Except TextCadError ℚ × Solution :=
  match findEntry sol.parameter_vars var_name with
  | some value => (.ok value, sol)
  | none =>
    match sol.model.eval param_var with
    | none => (.error (.solutionError
        ("Failed to evaluate parameter " ++ var_name)),
        { sol with evalCount := sol.evalCount + 1 })
    | some pv =>
      let sol1 := { sol with evalCount := sol.evalCount + 1 }
      match (rational_to_f64_enhanced pv var_name).1 with
      | .error e => (.error e, sol1)
      | .ok value =>
        (.ok value, { sol1 with parameter_vars := (var_name, value) :: sol1.parameter_vars })

/-- `Solution::get_parameter`: cached read only. -/
def Solution.get_parameter (sol : Solution) (var_name : String) :
    Except TextCadError ℚ :=
  match findEntry sol.parameter_vars var_name with
  | some value => .ok value
  | none => .error (.solutionError ("Parameter " ++ var_name ++ " not extracted"))

/-- `Solution::extract_line_parameters`: returns the cached parameters when
present (ignoring the supplied coordinates); otherwise computes length and
angle from the supplied endpoint coordinates and caches the result. `sqrtF`
and `atan2F` model the `f64::sqrt` and `f64::atan2` library routines. -/
def Solution.extract_line_parameters (sqrtF : ℚ → ℚ) (atan2F : ℚ → ℚ → ℚ)
    (sol : Solution) (line_id : LineId) (start_coords end_coords : ℚ × ℚ) :
    Except TextCadError LineParameters × Solution :=
  match findEntry sol.line_params line_id with
  | some params => (.ok params, sol)
  | none =>
    let dx := end_coords.1 - start_coords.1
    let dy := end_coords.2 - start_coords.2
    let length := sqrtF (dx * dx + dy * dy)
    let angle := atan2F dy dx
    let params : LineParameters :=
      { start := start_coords, endp := end_coords, length := length, angle := angle }
    (.ok params, { sol with line_params := (line_id, params) :: sol.line_params })

/-- `Solution::get_line_parameters`: cached read only. -/
def Solution.get_line_parameters (sol : Solution) (line_id : LineId) :
    Except TextCadError LineParameters :=
  match findEntry sol.line_params line_id with
  | some params => .ok params
  | none => .error (.solutionError
      ("Line " ++ line_id.debugStr ++ " parameters not extracted"))

/-- `Solution::extract_circle_parameters`: returns the cached parameters when
present (ignoring the supplied center and radius variable); otherwise
evaluates the radius in the model, converts it, computes circumference and
area and caches the result. -/
def Solution.extract_circle_parameters (sol : Solution) (circle_id : CircleId)
    (center_coords : ℚ × ℚ) (radius_var : String) :
    Except TextCadError CircleParameters × Solution :=
  match findEntry sol.circle_params circle_id with
  | some params => (.ok params, sol)
  | none =>
    match sol.model.eval radius_var with
    | none => (.error (.solutionError
        ("Failed to evaluate radius for circle " ++ circle_id.debugStr)),
        { sol with evalCount := sol.evalCount + 1 })
    | some rv =>
      let sol1 := { sol with evalCount := sol.evalCount + 1 }
      match (rational_to_f64_enhanced rv "radius").1 with
      | .error e => (.error e, sol1)
      | .ok radius =>
        let circumference := 2 * f64_pi * radius
        let area := f64_pi * radius * radius
        let params : CircleParameters :=
          { center := center_coords, radius := radius,
            circumference := circumference, area := area }
        (.ok params, { sol1 with circle_params := (circle_id, params) :: sol1.circle_params })

/-- `Solution::get_circle_parameters`: cached read only. -/
def Solution.get_circle_parameters (sol : Solution) (circle_id : CircleId) :
    Except TextCadError CircleParameters :=
  match findEntry sol.circle_params circle_id with
  | some params => .ok params
  | none => .error (.solutionError
      ("Circle " ++ circle_id.debugStr ++ " parameters not extracted"))

/-- Point-extraction loop of `Sketch::solve_and_extract`: extracts coordinates
for every point in the arena, propagating the first error. -/
def extractAllPoints (sol : Solution) : List Point2D → Except TextCadError Solution
  | [] => .ok sol
  | p :: rest =>
    match sol.extract_point_coordinates p.id p.x p.y with
    | (.error e, _) => .error e
    | (.ok _, sol') => extractAllPoints sol' rest

/-- Line-extraction loop of `Sketch::solve_and_extract`: reads both endpoint
coordinates from the cache and extracts line parameters for every line. -/
def extractAllLines (sqrtF : ℚ → ℚ) (atan2F : ℚ → ℚ → ℚ) (sol : Solution) :
    List Line → Except TextCadError Solution
  | [] => .ok sol
  | l :: rest =>
    match sol.get_point_coordinates l.start with
    | .error e => .error e
    | .ok start_coords =>
      match sol.get_point_coordinates l.endp with
      | .error e => .error e
      | .ok end_coords =>
        match sol.extract_line_parameters sqrtF atan2F l.id start_coords end_coords with
        | (.error e, _) => .error e
        | (.ok _, sol') => extractAllLines sqrtF atan2F sol' rest

/-- `Sketch::solve_and_extract`: solve the constraints, retrieve the model
(`getModel` stands for `solver.get_model()` on the post-check solver state),
then eagerly extract coordinates for every point and parameters for every
line. -/
def Sketch.solve_and_extract (check : List Formula → SatResult)
    (getModel : List Formula → Option Z3Model) (sqrtF : ℚ → ℚ)
    (atan2F : ℚ → ℚ → ℚ) (s : Sketch) :
    Sketch × Except TextCadError Solution :=
  let r := s.solve_constraints check
  match r.2 with
  | .error e => (r.1, .error e)
  | .ok _ =>
    match getModel r.1.assertions with
    | none => (r.1, .error (.solverError "No model available after solving"))
    | some m =>
      match extractAllPoints (Solution.new m) r.1.points with
      | .error e => (r.1, .error e)
      | .ok sol1 =>
        match extractAllLines sqrtF atan2F sol1 r.1.lines with
        | .error e => (r.1, .error e)
        | .ok sol2 => (r.1, .ok sol2)

/-- Reference decimal-digit list for a natural number, most significant digit
first, mirroring what `Nat.toDigitsCore` produces with enough fuel. -/
def decimalDigits (n : Nat) : List Char :=
  if n < 10 then [Nat.digitChar n]
  else decimalDigits (n / 10) ++ [Nat.digitChar (n % 10)]
termination_by n
decreasing_by exact Nat.div_lt_self (by omega) (by norm_num)

theorem decimalDigits_ne_nil (n : Nat) : decimalDigits n ≠ [] := by
  rw [decimalDigits]
  split <;> simp

theorem decimalDigits_eq_append (n : Nat) :
    decimalDigits n =
      (if n < 10 then [] else decimalDigits (n / 10)) ++ [Nat.digitChar (n % 10)] := by
  rw [decimalDigits]
  split
  · next h => simp [Nat.mod_eq_of_lt h]
  · next h => simp [h]

theorem toDigitsCore_eq_decimalDigits (fuel n : Nat) (ds : List Char)
    (hf : n < fuel) : Nat.toDigitsCore 10 fuel n ds = decimalDigits n ++ ds := by
  induction fuel generalizing n ds with
  | zero => omega
  | succ f ih =>
    show (if n / 10 = 0 then Nat.digitChar (n % 10) :: ds
        else Nat.toDigitsCore 10 f (n / 10) (Nat.digitChar (n % 10) :: ds)) =
      decimalDigits n ++ ds
    by_cases h0 : n / 10 = 0
    · have hn : n < 10 := by omega
      rw [if_pos h0, decimalDigits, if_pos hn, Nat.mod_eq_of_lt hn]
      simp
    · have hn : ¬ n < 10 := by
        intro hlt
        exact h0 (Nat.div_eq_of_lt hlt)
      rw [if_neg h0]
      have hfuel : n / 10 < f := by
        have h1 : n / 10 < n := Nat.div_lt_self (by omega) (by norm_num)
        omega
      rw [ih (n / 10) _ hfuel, decimalDigits_eq_append n, if_neg hn]
      simp

theorem decimalDigits_injective : Function.Injective decimalDigits := by
  intro m n h
  induction m using Nat.strong_induction_on generalizing n with
  | _ m ih =>
    rw [decimalDigits_eq_append m, decimalDigits_eq_append n] at h
    have h2 := congrArg List.reverse h
    simp only [List.reverse_append, List.reverse_cons, List.reverse_nil,
      List.nil_append, List.cons_append] at h2
    have hdigit : Nat.digitChar (m % 10) = Nat.digitChar (n % 10) :=
      (List.cons.injEq _ _ _ _ ▸ h2).1
    have htail : (if m < 10 then ([] : List Char) else decimalDigits (m / 10)).reverse =
        (if n < 10 then ([] : List Char) else decimalDigits (n / 10)).reverse :=
      (List.cons.injEq _ _ _ _ ▸ h2).2
    have hinj10 : ∀ a < 10, ∀ b < 10, Nat.digitChar a = Nat.digitChar b → a = b := by
      decide
    have hmod : m % 10 = n % 10 :=
      hinj10 _ (Nat.mod_lt _ (by norm_num)) _ (Nat.mod_lt _ (by norm_num)) hdigit
    by_cases hm10 : m < 10 <;> by_cases hn10 : n < 10
    · rw [Nat.mod_eq_of_lt hm10, Nat.mod_eq_of_lt hn10] at hmod
      exact hmod
    · rw [if_pos hm10, if_neg hn10] at htail
      exact absurd (List.reverse_eq_nil_iff.mp htail.symm) (decimalDigits_ne_nil _)
    · rw [if_neg hm10, if_pos hn10] at htail
      exact absurd (List.reverse_eq_nil_iff.mp htail) (decimalDigits_ne_nil _)
    · rw [if_neg hm10, if_neg hn10] at htail
      have hdiv : m / 10 = n / 10 :=
        ih (m / 10) (Nat.div_lt_self (by omega) (by norm_num))
          (List.reverse_injective htail)
      omega

theorem Nat_repr_injective : Function.Injective Nat.repr := by
  intro m n h
  have hm : Nat.repr m = (decimalDigits m).asString := by
    show (Nat.toDigits 10 m).asString = (decimalDigits m).asString
    rw [Nat.toDigits, toDigitsCore_eq_decimalDigits (m + 1) m [] (by omega)]
    simp
  have hn : Nat.repr n = (decimalDigits n).asString := by
    show (Nat.toDigits 10 n).asString = (decimalDigits n).asString
    rw [Nat.toDigits, toDigitsCore_eq_decimalDigits (n + 1) n [] (by omega)]
    simp
  rw [hm, hn] at h
  have hlist : decimalDigits m = decimalDigits n := by
    injection h
  exact decimalDigits_injective hlist

theorem String_append_left_cancel (s t u : String) (h : s ++ t = s ++ u) : t = u := by
  have h2 : (s ++ t).data = (s ++ u).data := by rw [h]
  simp only [String.data_append] at h2
  exact String.ext (List.append_cancel_left h2)

theorem String_append_right_cancel (s t u : String) (h : s ++ u = t ++ u) : s = t := by
  have h2 : (s ++ u).data = (t ++ u).data := by rw [h]
  simp only [String.data_append] at h2
  exact String.ext (List.append_cancel_right h2)

theorem tName_injective_right (lineIdx p q : Nat) (h : tName lineIdx p = tName lineIdx q) :
    p = q := by
  have hassoc : ∀ r : Nat, tName lineIdx r =
      ("t_line_" ++ Nat.repr lineIdx ++ "_point_") ++ Nat.repr r := by
    intro r
    show "t_line_" ++ Nat.repr lineIdx ++ "_point_" ++ Nat.repr r = _
    rw [String.append_assoc, String.append_assoc]
  rw [hassoc p, hassoc q] at h
  exact Nat_repr_injective (String_append_left_cancel _ _ _ h)

theorem mapErrTo_ok {α : Type} (a : α) (msg : String) :
    mapErrTo (.ok a) msg = .ok a := rfl

theorem applyLoop_acc (s : Sketch) (l : List Constr) (acc : List Formula) :
    applyLoop s l acc = (acc ++ (applyLoop s l []).1, (applyLoop s l []).2) := by
  induction l generalizing acc with
  | nil => simp [applyLoop]
  | cons c rest ih =>
    simp only [applyLoop]
    cases hc : applyConstraint s c with
    | error e => simp
    | ok fs =>
      dsimp only
      rw [ih (acc ++ fs), ih ([] ++ fs)]
      simp

theorem applyLoop_all_ok (s : Sketch) (l : List Constr) (fss : List (List Formula))
    (h : List.Forall₂ (fun c fs => applyConstraint s c = .ok fs) l fss) :
    ∀ acc, applyLoop s l acc = (acc ++ fss.flatten, none) := by
  induction h with
  | nil => simp [applyLoop]
  | @cons a b l1 l2 hc htail ih =>
    intro acc
    simp only [applyLoop, hc]
    rw [ih (acc ++ b)]
    simp [List.append_assoc]

theorem applyLoop_first_error (s : Sketch) (pre post : List Constr) (c : Constr)
    (fss : List (List Formula)) (e : TextCadError)
    (hpre : List.Forall₂ (fun c fs => applyConstraint s c = .ok fs) pre fss)
    (hc : applyConstraint s c = .error e) :
    ∀ acc, applyLoop s (pre ++ c :: post) acc = (acc ++ fss.flatten, some e) := by
  induction hpre with
  | nil =>
    intro acc
    simp [applyLoop, hc]
  | @cons a b l1 l2 hok htail ih =>
    intro acc
    simp only [List.cons_append, applyLoop, hok, List.append_eq]
    rw [ih (acc ++ b)]
    simp [List.append_assoc]

theorem extract_point_cached (sol : Solution) (id : PointId) (xv yv : String)
    (v : ℚ × ℚ) (h : findEntry sol.point_coords id = some v) :
    sol.extract_point_coordinates id xv yv = (.ok v, sol) := by
  unfold Solution.extract_point_coordinates
  rw [h]

theorem extract_point_ok_cache (sol sol1 : Solution) (id : PointId) (xv yv : String)
    (v : ℚ × ℚ) (h : sol.extract_point_coordinates id xv yv = (.ok v, sol1)) :
    findEntry sol1.point_coords id = some v := by
  unfold Solution.extract_point_coordinates at h
  split at h
  next coords hfind =>
    injection h with h1 h2
    injection h1 with h3
    subst h3
    rw [← h2, hfind]
  next hfind =>
    split at h
    next =>
      injection h with h1 h2
      injection h1
    next xval hx =>
      split at h
      next =>
        injection h with h1 h2
        injection h1
      next yval hy =>
        split at h
        next =>
          injection h with h1 h2
          injection h1
        next x hxc =>
          split at h
          next =>
            injection h with h1 h2
            injection h1
          next y hyc =>
            injection h with h1 h2
            injection h1 with h3
            subst h3
            rw [← h2]
            simp [findEntry]

theorem extract_parameter_cached (sol : Solution) (name var : String) (v : ℚ)
    (h : findEntry sol.parameter_vars name = some v) :
    sol.extract_parameter name var = (.ok v, sol) := by
  unfold Solution.extract_parameter
  rw [h]

theorem extract_parameter_ok_cache (sol sol1 : Solution) (name var : String) (v : ℚ)
    (h : sol.extract_parameter name var = (.ok v, sol1)) :
    findEntry sol1.parameter_vars name = some v := by
  unfold Solution.extract_parameter at h
  split at h
  next value hfind =>
    injection h with h1 h2
    injection h1 with h3
    subst h3
    rw [← h2, hfind]
  next hfind =>
    split at h
    next =>
      injection h with h1 h2
      injection h1
    next pval hp =>
      split at h
      next =>
        injection h with h1 h2
        injection h1
      next value hvc =>
        injection h with h1 h2
        injection h1 with h3
        subst h3
        rw [← h2]
        simp [findEntry]

theorem extract_line_cached (sqrtF : ℚ → ℚ) (atan2F : ℚ → ℚ → ℚ) (sol : Solution)
    (id : LineId) (a b : ℚ × ℚ) (v : LineParameters)
    (h : findEntry sol.line_params id = some v) :
    Solution.extract_line_parameters sqrtF atan2F sol id a b = (.ok v, sol) := by
  unfold Solution.extract_line_parameters
  rw [h]

theorem extract_line_ok_cache (sqrtF : ℚ → ℚ) (atan2F : ℚ → ℚ → ℚ)
    (sol sol1 : Solution) (id : LineId) (a b : ℚ × ℚ) (v : LineParameters)
    (h : Solution.extract_line_parameters sqrtF atan2F sol id a b = (.ok v, sol1)) :
    findEntry sol1.line_params id = some v := by
  unfold Solution.extract_line_parameters at h
  split at h
  next params hfind =>
    injection h with h1 h2
    injection h1 with h3
    subst h3
    rw [← h2, hfind]
  next hfind =>
    injection h with h1 h2
    injection h1 with h3
    subst h3
    rw [← h2]
    simp [findEntry]

theorem extract_circle_cached (sol : Solution) (id : CircleId) (c : ℚ × ℚ)
    (rv : String) (v : CircleParameters)
    (h : findEntry sol.circle_params id = some v) :
    sol.extract_circle_parameters id c rv = (.ok v, sol) := by
  unfold Solution.extract_circle_parameters
  rw [h]

theorem extract_circle_ok_cache (sol sol1 : Solution) (id : CircleId) (c : ℚ × ℚ)
    (rv : String) (v : CircleParameters)
    (h : sol.extract_circle_parameters id c rv = (.ok v, sol1)) :
    findEntry sol1.circle_params id = some v := by
  unfold Solution.extract_circle_parameters at h
  split at h
  next params hfind =>
    injection h with h1 h2
    injection h1 with h3
    subst h3
    rw [← h2, hfind]
  next hfind =>
    split at h
    next =>
      injection h with h1 h2
      injection h1
    next rval hr =>
      split at h
      next =>
        injection h with h1 h2
        injection h1
      next radius hrc =>
        injection h with h1 h2
        injection h1 with h3
        subst h3
        rw [← h2]
        simp [findEntry]

/-- C9: for every `Solution` and every entity identifier or parameter name,
each cache entry is written at most once: once a call to
`extract_point_coordinates`, `extract_parameter`, `extract_line_parameters`
or `extract_circle_parameters` has succeeded, repeating the call with the
same key returns the same value and leaves the `Solution` state — caches and
model-evaluation count — completely unchanged, so the model is not
re-evaluated and the returned value is identical to the first one. -/
theorem solution_cache_idempotent :
    (∀ (sol sol1 : Solution) (id : PointId) (xv yv : String) (v : ℚ × ℚ),
      sol.extract_point_coordinates id xv yv = (.ok v, sol1) →
      sol1.extract_point_coordinates id xv yv = (.ok v, sol1)) ∧
    (∀ (sol sol1 : Solution) (name var : String) (v : ℚ),
      sol.extract_parameter name var = (.ok v, sol1) →
      sol1.extract_parameter name var = (.ok v, sol1)) ∧
    (∀ (sqrtF : ℚ → ℚ) (atan2F : ℚ → ℚ → ℚ) (sol sol1 : Solution) (id : LineId)
      (a b : ℚ × ℚ) (v : LineParameters),
      Solution.extract_line_parameters sqrtF atan2F sol id a b = (.ok v, sol1) →
      Solution.extract_line_parameters sqrtF atan2F sol1 id a b = (.ok v, sol1)) ∧
    (∀ (sol sol1 : Solution) (id : CircleId) (c : ℚ × ℚ) (rv : String)
      (v : CircleParameters),
      sol.extract_circle_parameters id c rv = (.ok v, sol1) →
      sol1.extract_circle_parameters id c rv = (.ok v, sol1)) := by
  refine ⟨?_, ?_, ?_, ?_⟩
  · intro sol sol1 id xv yv v h
    exact extract_point_cached sol1 id xv yv v (extract_point_ok_cache sol sol1 id xv yv v h)
  · intro sol sol1 name var v h
    exact extract_parameter_cached sol1 name var v
      (extract_parameter_ok_cache sol sol1 name var v h)
  · intro sqrtF atan2F sol sol1 id a b v h
    exact extract_line_cached sqrtF atan2F sol1 id a b v
      (extract_line_ok_cache sqrtF atan2F sol sol1 id a b v h)
  · intro sol sol1 id c rv v h
    exact extract_circle_cached sol1 id c rv v
      (extract_circle_ok_cache sol sol1 id c rv v h)

/-- Example solution used to witness the cache theorems: a model assigning the
rational 3 to every variable. -/
def witnessModel : Z3Model :=
  { eval := fun _ => some (.realNumeral 3 1) }

/-- Solution whose point and parameter caches already hold one successfully
extracted entry each, used to witness the C9 theorem. -/
def witnessSolution : Solution :=
  { model := witnessModel,
    point_coords := [(⟨⟨0, 0⟩⟩, (3, 3))],
    line_params := [],
    circle_params := [],
    parameter_vars := [("t_line_0_point_1", 3)],
    evalCount := 2 }

/-- Witness for the C9 theorem at concrete inputs: a successful call (here a
cache hit, as after any earlier successful extraction) followed by the
repeated call with the same key. -/
theorem solution_cache_idempotent_witness :
    witnessSolution.extract_point_coordinates ⟨⟨0, 0⟩⟩ "p_x" "p_y" =
      (.ok (3, 3), witnessSolution) ∧
    witnessSolution.extract_parameter "t_line_0_point_1" "t_line_0_point_1" =
      (.ok 3, witnessSolution) := by
  constructor
  · exact solution_cache_idempotent.1 witnessSolution witnessSolution ⟨⟨0, 0⟩⟩
      "p_x" "p_y" (3, 3) rfl
  · exact solution_cache_idempotent.2.1 witnessSolution witnessSolution
      "t_line_0_point_1" "t_line_0_point_1" 3 rfl

/-- C10: a line id already present in the line-parameter cache makes a
repeated `extract_line_parameters` call return the originally cached
parameters, completely ignoring the newly supplied start/end coordinates
(which may differ from the ones used at the first call), and leaving the
state unchanged; `extract_circle_parameters` behaves the same way for its
center-coordinate argument (and does not re-evaluate the radius). -/
theorem cached_extraction_ignores_arguments :
    (∀ (sqrtF : ℚ → ℚ) (atan2F : ℚ → ℚ → ℚ) (sol : Solution) (id : LineId)
      (p : LineParameters) (a b : ℚ × ℚ),
      findEntry sol.line_params id = some p →
      Solution.extract_line_parameters sqrtF atan2F sol id a b = (.ok p, sol)) ∧
    (∀ (sol : Solution) (id : CircleId) (p : CircleParameters) (c : ℚ × ℚ)
      (rv : String),
      findEntry sol.circle_params id = some p →
      sol.extract_circle_parameters id c rv = (.ok p, sol)) := by
  constructor
  · intro sqrtF atan2F sol id p a b h
    exact extract_line_cached sqrtF atan2F sol id a b p h
  · intro sol id p c rv h
    exact extract_circle_cached sol id c rv p h

/-- Cached line parameters used by the C10 witness. -/
def witnessLineParams : LineParameters :=
  { start := (0, 0), endp := (3, 4), length := 5, angle := 0 }

/-- Cached circle parameters used by the C10 witness. -/
def witnessCircleParams : CircleParameters :=
  { center := (1, 1), radius := 2, circumference := 4 * f64_pi, area := 4 * f64_pi }

/-- Solution with pre-populated line and circle caches for the C10 witness. -/
def witnessCachedSolution : Solution :=
  { model := witnessModel,
    point_coords := [],
    line_params := [(⟨⟨0, 0⟩⟩, witnessLineParams)],
    circle_params := [(⟨⟨0, 0⟩⟩, witnessCircleParams)],
    parameter_vars := [],
    evalCount := 0 }

/-- Witness for the C10 theorem: repeated calls with coordinates differing
from the cached ones still return the cached parameters unchanged. -/
theorem cached_extraction_ignores_arguments_witness :
    Solution.extract_line_parameters (fun q => q) (fun _ _ => 0)
        witnessCachedSolution ⟨⟨0, 0⟩⟩ (7, 7) (9, 9) =
      (.ok witnessLineParams, witnessCachedSolution) ∧
    witnessCachedSolution.extract_circle_parameters ⟨⟨0, 0⟩⟩ (5, 5) "other_radius" =
      (.ok witnessCircleParams, witnessCachedSolution) := by
  constructor
  · exact cached_extraction_ignores_arguments.1 (fun q => q) (fun _ _ => 0)
      witnessCachedSolution ⟨⟨0, 0⟩⟩ witnessLineParams (7, 7) (9, 9) rfl
  · exact cached_extraction_ignores_arguments.2 witnessCachedSolution ⟨⟨0, 0⟩⟩
      witnessCircleParams (5, 5) "other_radius" rfl

/-- C8: for every rational `(numerator, denominator)` produced by the solver
model, the conversion returns a `SolutionError` on a zero denominator, a
`SolutionError` on a non-finite quotient, and otherwise `Ok(numerator /
denominator)`; the small-denominator/large-numerator combination only sets
the non-fatal warning flag and still returns the converted value. -/
theorem rational_conversion_spec (num den : Int) (ctx : String) :
    (den = 0 → rational_to_f64_enhanced (.realNumeral num den) ctx =
      (.error (.solutionError ("Division by zero in " ++ ctx ++ " rational: " ++
        Int.repr num ++ "/" ++ Int.repr den)), false)) ∧
    (den ≠ 0 → f64_div_finite num den = false →
      rational_to_f64_enhanced (.realNumeral num den) ctx =
      (.error (.solutionError ("Non-finite result in " ++ ctx ++ " conversion: " ++
        Int.repr num ++ "/" ++ Int.repr den ++ " = " ++ nonfiniteDisplay num den)), false)) ∧
    (den ≠ 0 → f64_div_finite num den = true →
      rational_to_f64_enhanced (.realNumeral num den) ctx =
      (.ok ((num : ℚ) / (den : ℚ)), precision_warning num den)) ∧
    (precision_warning num den = true ↔ den.natAbs < 1000 ∧ num.natAbs > 1000000000) := by
  refine ⟨?_, ?_, ?_, ?_⟩
  · intro h
    simp [rational_to_f64_enhanced, h]
  · intro h hfin
    simp [rational_to_f64_enhanced, h, hfin]
  · intro h hfin
    simp [rational_to_f64_enhanced, h, hfin]
  · simp [precision_warning]

/-- Witness for the C8 theorem: the zero-denominator rejection, a plain
conversion without warning, and a conversion whose thresholds trigger the
non-fatal warning while the value is still returned. -/
theorem rational_conversion_spec_witness :
    rational_to_f64_enhanced (.realNumeral 3 0) "x" =
      (.error (.solutionError "Division by zero in x rational: 3/0"), false) ∧
    rational_to_f64_enhanced (.realNumeral 3 4) "coordinate" = (.ok (3 / 4 : ℚ), false) ∧
    rational_to_f64_enhanced (.realNumeral 2000000000 5) "t" =
      (.ok (400000000 : ℚ), true) := by
  refine ⟨?_, ?_, ?_⟩
  · have h := (rational_conversion_spec 3 0 "x").1 rfl
    rw [h]
    rfl
  · have h := (rational_conversion_spec 3 4 "coordinate").2.2.1 (by decide) (by decide)
    rw [h]
    norm_num [precision_warning]
  · have h := (rational_conversion_spec 2000000000 5 "t").2.2.1 (by decide) (by decide)
    rw [h]
    norm_num [precision_warning]

/-- C2: `add_circle(center, name?)` stores a circle built by `Circle::new`
(which allocates one symbolic radius unknown named from the display name with
the `_radius` suffix, in particular `{name}_radius` for a supplied name),
`get_circle` retrieves it, and the `SketchQuery` implementation answers
`circle_center_and_radius` for circles the sketch stores. -/
theorem add_circle_spec (s : Sketch) (center : PointId) (name : Option String)
    (s' : Sketch) (id : CircleId) (h : s.add_circle center name = (s', id)) :
    s'.get_circle id = some (Circle.new id center name) ∧
    (Circle.new id center name).radius = (name.getD "c") ++ "_radius" ∧
    (∀ nm : String, (Circle.new id center (some nm)).radius = nm ++ "_radius") ∧
    s'.circle_center_and_radius id = .ok (center, .var ((name.getD "c") ++ "_radius")) := by
  have hs' : s' = (s.add_circle center name).1 := by rw [h]
  have hid : id = (s.add_circle center name).2 := by rw [h]
  subst hs' hid
  have hget : (s.add_circle center name).1.get_circle (s.add_circle center name).2 =
      some (Circle.new (s.add_circle center name).2 center name) := by
    simp [Sketch.get_circle, Sketch.add_circle, Circle.new, List.getElem?_concat_length]
  refine ⟨hget, rfl, fun nm => rfl, ?_⟩
  rw [Sketch.circle_center_and_radius, hget]
  rfl

/-- Witness for the C2 theorem: a circle added to the empty sketch with a
supplied name. -/
theorem add_circle_spec_witness :
    (Sketch.empty.add_circle ⟨⟨0, 0⟩⟩ (some "c1")).1.get_circle ⟨⟨0, 0⟩⟩ =
      some (Circle.new ⟨⟨0, 0⟩⟩ ⟨⟨0, 0⟩⟩ (some "c1")) ∧
    (Circle.new (⟨⟨0, 0⟩⟩ : CircleId) ⟨⟨0, 0⟩⟩ (some "c1")).radius = "c1" ++ "_radius" ∧
    (Sketch.empty.add_circle ⟨⟨0, 0⟩⟩ (some "c1")).1.circle_center_and_radius ⟨⟨0, 0⟩⟩ =
      .ok (⟨⟨0, 0⟩⟩, .var ("c1" ++ "_radius")) := by
  have h := add_circle_spec Sketch.empty ⟨⟨0, 0⟩⟩ (some "c1")
    (Sketch.empty.add_circle ⟨⟨0, 0⟩⟩ (some "c1")).1 ⟨⟨0, 0⟩⟩ rfl
  exact ⟨h.1, h.2.1, h.2.2.2⟩

/-- C3 counterexample: two points added to the same sketch without a display
name receive distinct identifiers but the same underlying symbolic-variable
names (both `p_x`/`p_y`); the default scheme does not involve the identifier,
contradicting the claim that unnamed entities get distinct variable names. -/
theorem default_name_alias_counterexample :
    ((Sketch.empty.add_point none).2 ≠ ((Sketch.empty.add_point none).1.add_point none).2) ∧
    (((Sketch.empty.add_point none).1.add_point none).1.get_point
        (Sketch.empty.add_point none).2 =
      some { id := ⟨⟨0, 0⟩⟩, x := "p_x", y := "p_y", name := none }) ∧
    (((Sketch.empty.add_point none).1.add_point none).1.get_point
        ((Sketch.empty.add_point none).1.add_point none).2 =
      some { id := ⟨⟨1, 0⟩⟩, x := "p_x", y := "p_y", name := none }) := by
  refine ⟨by decide, rfl, rfl⟩

/-- C3 (amended): variable names are derived deterministically from the
display name, so entities carrying distinct supplied display names have
distinct underlying symbolic-variable names; when no name is supplied the
default scheme uses only the fixed generic prefix (`p` for points, `c` for
circles) without the identifier, so all unnamed entities of a kind share the
same variable names and distinctness is not guaranteed. -/
theorem entity_variable_naming_spec :
    (∀ (id1 id2 : PointId) (n1 n2 : String), n1 ≠ n2 →
      (Point2D.new id1 (some n1)).x ≠ (Point2D.new id2 (some n2)).x ∧
      (Point2D.new id1 (some n1)).y ≠ (Point2D.new id2 (some n2)).y) ∧
    (∀ (cid1 cid2 : CircleId) (c1 c2 : PointId) (n1 n2 : String), n1 ≠ n2 →
      (Circle.new cid1 c1 (some n1)).radius ≠ (Circle.new cid2 c2 (some n2)).radius) ∧
    (∀ id : PointId, (Point2D.new id none).x = "p_x" ∧ (Point2D.new id none).y = "p_y") ∧
    (∀ (cid : CircleId) (c : PointId), (Circle.new cid c none).radius = "c_radius") := by
  refine ⟨?_, ?_, fun id => ⟨rfl, rfl⟩, fun cid c => rfl⟩
  · intro id1 id2 n1 n2 hne
    constructor
    · intro heq
      exact hne (String_append_right_cancel n1 n2 "_x" heq)
    · intro heq
      exact hne (String_append_right_cancel n1 n2 "_y" heq)
  · intro cid1 cid2 c1 c2 n1 n2 hne heq
    exact hne (String_append_right_cancel n1 n2 "_radius" heq)

/-- Witness for the C3 amended theorem: two distinct display names yield
distinct variable names. -/
theorem entity_variable_naming_spec_witness :
    (Point2D.new ⟨⟨0, 0⟩⟩ (some "p1")).x ≠ (Point2D.new ⟨⟨1, 0⟩⟩ (some "p2")).x ∧
    (Circle.new ⟨⟨0, 0⟩⟩ ⟨⟨0, 0⟩⟩ (some "c1")).radius ≠
      (Circle.new ⟨⟨1, 0⟩⟩ ⟨⟨0, 0⟩⟩ (some "c2")).radius := by
  constructor
  · exact (entity_variable_naming_spec.1 ⟨⟨0, 0⟩⟩ ⟨⟨1, 0⟩⟩ "p1" "p2" (by decide)).1
  · exact entity_variable_naming_spec.2.1 ⟨⟨0, 0⟩⟩ ⟨⟨1, 0⟩⟩ ⟨⟨0, 0⟩⟩ ⟨⟨0, 0⟩⟩ "c1" "c2"
      (by decide)

theorem ratTrunc_eq_floor_of_nonneg (q : ℚ) (h : 0 ≤ q) : ratTrunc q = ⌊q⌋ := by
  rw [ratTrunc, Int.tdiv_eq_ediv (Rat.num_nonneg.mpr h) (Int.ofNat_nonneg q.den),
    Rat.floor_def]

theorem f64_as_i32_of_unit_interval (q : ℚ) (h0 : 0 ≤ q) (h1 : q < 1) :
    f64_as_i32 q = 0 := by
  have ht : ratTrunc q = 0 := by
    rw [ratTrunc_eq_floor_of_nonneg q h0, Int.floor_eq_zero_iff]
    exact ⟨h0, h1⟩
  rw [f64_as_i32, ht]
  decide

theorem ratTrunc_intCast (n : Int) : ratTrunc ((n : ℚ)) = n := by
  simp [ratTrunc, Rat.num_intCast, Rat.den_intCast, Int.tdiv_one]

theorem f64_as_i32_intCast (n : Int) (h1 : -2147483648 ≤ n) (h2 : n ≤ 2147483647) :
    f64_as_i32 ((n : ℚ)) = n := by
  rw [f64_as_i32, ratTrunc_intCast, clampI32]
  omega

/-- C4 (amended): applying a Line Length constraint asserts exactly one
equation, whose left side is the squared distance `(x2−x1)² + (y2−y1)²` (no
square root is introduced) and whose right side is not `target²` itself but
the fixed-point quantization `trunc_i32(target² · 10⁶) / 10⁶` of it (the code
converts the squared target through a saturating truncating `as i32` cast
after scaling by one million); any target, including a negative or zero one,
is accepted without error. -/
theorem line_length_constraint_spec (s : Sketch) (line : LineId) (len : Length)
    (a b : PointId) (xa ya xb yb : RealExpr)
    (hline : s.line_endpoints line = .ok (a, b))
    (ha : s.point_variables a = .ok (xa, ya))
    (hb : s.point_variables b = .ok (xb, yb)) :
    applyConstraint s (.lineLength line len) =
      .ok [.eq (.add (.mul (.sub xb xa) (.sub xb xa)) (.mul (.sub yb ya) (.sub yb ya)))
        (.ratLit (f64_as_i32 (len.to_meters * len.to_meters * 1000000)) 1000000)] := by
  simp only [applyConstraint, hline, ha, hb, mapErrTo]

/-- Concrete sketch used by the C4 counterexample and witness: two named
points and a line between them. -/
def lineSketch : Sketch :=
  (((Sketch.empty.add_point (some "a")).1.add_point (some "b")).1.add_line
    ⟨⟨0, 0⟩⟩ ⟨⟨1, 0⟩⟩ (some "l")).1

/-- Squared-distance expression produced for the line of `lineSketch`. -/
def lineSketchDistSq : RealExpr :=
  .add (.mul (.sub (.var "b_x") (.var "a_x")) (.sub (.var "b_x") (.var "a_x")))
    (.mul (.sub (.var "b_y") (.var "a_y")) (.sub (.var "b_y") (.var "a_y")))

/-- Witness for the C4 amended theorem at a concrete sketch and target. -/
theorem line_length_constraint_spec_witness :
    applyConstraint lineSketch (.lineLength ⟨⟨0, 0⟩⟩ ⟨3⟩) =
      .ok [.eq lineSketchDistSq
        (.ratLit (f64_as_i32 ((Length.mk 3).to_meters * (Length.mk 3).to_meters * 1000000))
          1000000)] :=
  line_length_constraint_spec lineSketch ⟨⟨0, 0⟩⟩ ⟨3⟩ ⟨⟨0, 0⟩⟩ ⟨⟨1, 0⟩⟩
    (.var "a_x") (.var "a_y") (.var "b_x") (.var "b_y") rfl rfl rfl

/-- C4 counterexample: with the target length `1/1024` (exactly representable
in `f64`, with all intermediate `f64` computations exact), the code asserts
the equation `distSq == 0/10⁶`, not `distSq == target²`: the all-zero
assignment satisfies the asserted equation while violating the claimed one,
since `target² = 1/1048576 ≠ 0`. -/
theorem line_length_quantization_counterexample :
    applyConstraint lineSketch (.lineLength ⟨⟨0, 0⟩⟩ ⟨1/1024⟩) =
      .ok [.eq lineSketchDistSq (.ratLit 0 1000000)] ∧
    holds (fun _ => 0) (.eq lineSketchDistSq (.ratLit 0 1000000)) ∧
    evalExpr (fun _ => 0) lineSketchDistSq = 0 ∧
    ((1 / 1024 : ℚ) * (1 / 1024) ≠ 0) := by
  refine ⟨?_, ?_, ?_, by norm_num⟩
  · have h := line_length_constraint_spec lineSketch ⟨⟨0, 0⟩⟩ ⟨1/1024⟩ ⟨⟨0, 0⟩⟩ ⟨⟨1, 0⟩⟩
      (.var "a_x") (.var "a_y") (.var "b_x") (.var "b_y") rfl rfl rfl
    rw [h]
    have hq : f64_as_i32 ((Length.mk (1/1024)).to_meters *
        (Length.mk (1/1024)).to_meters * 1000000) = 0 := by
      apply f64_as_i32_of_unit_interval
      · show (0 : ℚ) ≤ (1/1024 : ℚ) * (1/1024) * 1000000
        norm_num
      · show (1/1024 : ℚ) * (1/1024) * 1000000 < 1
        norm_num
    rw [hq]
    rfl
  · show evalExpr (fun _ => 0) lineSketchDistSq = evalExpr (fun _ => 0) (.ratLit 0 1000000)
    norm_num [evalExpr, lineSketchDistSq]
  · norm_num [evalExpr, lineSketchDistSq]

/-- C5: applying a Point On Line constraint introduces one internal unknown
`t` whose name is derived deterministically from the slot indices of the
(line, point) identifier pair, and asserts exactly the four formulas
`x == x1 + t·(x2−x1)`, `y == y1 + t·(y2−y1)`, `t ≥ 0`, `t ≤ 1`; for a fixed
line, distinct point indices always yield distinct parameter names, so
several point-on-line constraints on the same line with different points
never collide. -/
theorem point_on_line_constraint_spec :
    (∀ (s : Sketch) (line : LineId) (point a b : PointId)
      (px py xa ya xb yb : RealExpr),
      s.line_endpoints line = .ok (a, b) →
      s.point_variables point = .ok (px, py) →
      s.point_variables a = .ok (xa, ya) →
      s.point_variables b = .ok (xb, yb) →
      applyConstraint s (.pointOnLine line point) =
        .ok [.eq px (.add xa (.mul (.var (tName line.index.idx point.index.idx))
              (.sub xb xa))),
          .eq py (.add ya (.mul (.var (tName line.index.idx point.index.idx))
              (.sub yb ya))),
          .ge (.var (tName line.index.idx point.index.idx)) (.ratLit 0 1),
          .le (.var (tName line.index.idx point.index.idx)) (.ratLit 1 1)]) ∧
    (∀ lineIdx p q : Nat, p ≠ q → tName lineIdx p ≠ tName lineIdx q) := by
  constructor
  · intro s line point a b px py xa ya xb yb hline hp ha hb
    simp only [applyConstraint, hline, hp, ha, hb, mapErrTo]
  · intro lineIdx p q hne heq
    exact hne (tName_injective_right lineIdx p q heq)

/-- Sketch with three points and one line, used by the C5 witness. -/
def pointOnLineSketch : Sketch :=
  ((((Sketch.empty.add_point (some "a")).1.add_point (some "b")).1.add_point
      (some "q")).1.add_line ⟨⟨0, 0⟩⟩ ⟨⟨1, 0⟩⟩ (some "l")).1

/-- Witness for the C5 theorem: the four formulas produced at a concrete
sketch, and name distinctness at concrete indices. -/
theorem point_on_line_constraint_spec_witness :
    applyConstraint pointOnLineSketch (.pointOnLine ⟨⟨0, 0⟩⟩ ⟨⟨2, 0⟩⟩) =
      .ok [.eq (.var "q_x") (.add (.var "a_x") (.mul (.var (tName 0 2))
            (.sub (.var "b_x") (.var "a_x")))),
        .eq (.var "q_y") (.add (.var "a_y") (.mul (.var (tName 0 2))
            (.sub (.var "b_y") (.var "a_y")))),
        .ge (.var (tName 0 2)) (.ratLit 0 1),
        .le (.var (tName 0 2)) (.ratLit 1 1)] ∧
    tName 0 1 ≠ tName 0 2 := by
  constructor
  · exact point_on_line_constraint_spec.1 pointOnLineSketch ⟨⟨0, 0⟩⟩ ⟨⟨2, 0⟩⟩
      ⟨⟨0, 0⟩⟩ ⟨⟨1, 0⟩⟩ (.var "q_x") (.var "q_y") (.var "a_x") (.var "a_y")
      (.var "b_x") (.var "b_y") rfl rfl rfl rfl
  · exact point_on_line_constraint_spec.2 0 1 2 (by decide)

/-- C6: applying a Parallel Lines constraint asserts the single cross-product
equation `dx1·dy2 − dy1·dx2 == 0` over the two direction vectors, and for
every assignment under which line A is degenerate (its start and end
coordinates coincide, giving direction vector `(0,0)`) the asserted equation
holds regardless of line B's coordinates. -/
theorem parallel_lines_constraint_spec
    (s : Sketch) (l1 l2 : LineId) (a1 b1 a2 b2 : PointId)
    (x1s y1s x1e y1e x2s y2s x2e y2e : RealExpr)
    (h1 : s.line_endpoints l1 = .ok (a1, b1))
    (h2 : s.line_endpoints l2 = .ok (a2, b2))
    (ha1 : s.point_variables a1 = .ok (x1s, y1s))
    (hb1 : s.point_variables b1 = .ok (x1e, y1e))
    (ha2 : s.point_variables a2 = .ok (x2s, y2s))
    (hb2 : s.point_variables b2 = .ok (x2e, y2e)) :
    applyConstraint s (.parallelLines l1 l2) =
      .ok [.eq (.sub (.mul (.sub x1e x1s) (.sub y2e y2s))
              (.mul (.sub y1e y1s) (.sub x2e x2s))) (.ratLit 0 1)] ∧
    (∀ env : String → ℚ, evalExpr env x1s = evalExpr env x1e →
      evalExpr env y1s = evalExpr env y1e →
      holds env (.eq (.sub (.mul (.sub x1e x1s) (.sub y2e y2s))
        (.mul (.sub y1e y1s) (.sub x2e x2s))) (.ratLit 0 1))) := by
  constructor
  · simp only [applyConstraint, h1, h2, ha1, hb1, ha2, hb2, mapErrTo]
  · intro env hx hy
    show evalExpr env _ = evalExpr env _
    simp only [evalExpr]
    rw [hx, hy]
    norm_num

/-- Sketch with four points and two lines, used by the C6 and C7 witnesses. -/
def twoLineSketch : Sketch :=
  (((((Sketch.empty.add_point (some "a")).1.add_point (some "b")).1.add_point
      (some "c")).1.add_point (some "d")).1.add_line ⟨⟨0, 0⟩⟩ ⟨⟨1, 0⟩⟩
      (some "l1")).1.add_line ⟨⟨2, 0⟩⟩ ⟨⟨3, 0⟩⟩ (some "l2") |>.1

/-- Witness for the C6 theorem: the asserted equation at a concrete sketch and
its trivial satisfaction under the all-zero (degenerate) assignment. -/
theorem parallel_lines_constraint_spec_witness :
    applyConstraint twoLineSketch (.parallelLines ⟨⟨0, 0⟩⟩ ⟨⟨1, 0⟩⟩) =
      .ok [.eq (.sub (.mul (.sub (.var "b_x") (.var "a_x"))
            (.sub (.var "d_y") (.var "c_y")))
          (.mul (.sub (.var "b_y") (.var "a_y"))
            (.sub (.var "d_x") (.var "c_x")))) (.ratLit 0 1)] ∧
    holds (fun _ => 0) (.eq (.sub (.mul (.sub (.var "b_x") (.var "a_x"))
          (.sub (.var "d_y") (.var "c_y")))
        (.mul (.sub (.var "b_y") (.var "a_y"))
          (.sub (.var "d_x") (.var "c_x")))) (.ratLit 0 1)) := by
  have h := parallel_lines_constraint_spec twoLineSketch ⟨⟨0, 0⟩⟩ ⟨⟨1, 0⟩⟩
    ⟨⟨0, 0⟩⟩ ⟨⟨1, 0⟩⟩ ⟨⟨2, 0⟩⟩ ⟨⟨3, 0⟩⟩ (.var "a_x") (.var "a_y") (.var "b_x")
    (.var "b_y") (.var "c_x") (.var "c_y") (.var "d_x") (.var "d_y")
    rfl rfl rfl rfl rfl rfl
  exact ⟨h.1, h.2 (fun _ => 0) rfl rfl⟩

theorem solve_constraints_err (check : List Formula → SatResult) (s : Sketch)
    (L : List Formula) (e : TextCadError)
    (happly : applyLoop s s.constraints [] = (L, some e)) :
    (s.solve_constraints check).2 = .error e := by
  rw [Sketch.solve_constraints, happly]

theorem solve_constraints_mapped (check : List Formula → SatResult) (s : Sketch)
    (L : List Formula) (happly : applyLoop s s.constraints [] = (L, none)) :
    (check (s.assertions ++ L) = .sat → (s.solve_constraints check).2 = .ok .sat) ∧
    (check (s.assertions ++ L) = .unsat →
      (s.solve_constraints check).2 = .error .overConstrained) ∧
    (check (s.assertions ++ L) = .unknown →
      (s.solve_constraints check).2 =
        .error (.solverError "Z3 solver returned unknown result")) := by
  refine ⟨?_, ?_, ?_⟩ <;> intro hc <;>
  · rw [Sketch.solve_constraints, happly]
    show (Sketch.solve check _).2 = _
    rw [Sketch.solve]
    rw [show ({ s with assertions := s.assertions ++ L } : Sketch).assertions =
      s.assertions ++ L from rfl, hc]

theorem solve_and_extract_err (check : List Formula → SatResult)
    (getModel : List Formula → Option Z3Model) (sqrtF : ℚ → ℚ)
    (atan2F : ℚ → ℚ → ℚ) (s : Sketch) (e : TextCadError)
    (h : (s.solve_constraints check).2 = .error e) :
    (s.solve_and_extract check getModel sqrtF atan2F).2 = .error e := by
  rw [Sketch.solve_and_extract, h]

theorem check_unsat_of_sound (check : List Formula → SatResult) (L : List Formula)
    (hsound : check L = .sat → Satisfiable L) (hunk : check L ≠ .unknown)
    (hunsat : ¬ Satisfiable L) : check L = .unsat := by
  cases hc : check L
  · exact absurd (hsound hc) hunsat
  · rfl
  · exact absurd hc hunk

/-- Concrete scenario C from the spec: one point fixed twice, at (1,1) and at
(2,2) meters. -/
def scenarioC : Sketch :=
  (((Sketch.empty.add_point (some "p1")).1.add_constraint
      (.fixedPosition ⟨⟨0, 0⟩⟩ ⟨1⟩ ⟨1⟩)).add_constraint
    (.fixedPosition ⟨⟨0, 0⟩⟩ ⟨2⟩ ⟨2⟩))

/-- Formulas asserted on the solver by scenario C's two constraints. -/
def scenarioC_formulas : List Formula :=
  [.eq (.var "p1_x") (.ratLit (f64_as_i32 ((1 : ℚ) * 1000000)) 1000000),
   .eq (.var "p1_y") (.ratLit (f64_as_i32 ((1 : ℚ) * 1000000)) 1000000),
   .eq (.var "p1_x") (.ratLit (f64_as_i32 ((2 : ℚ) * 1000000)) 1000000),
   .eq (.var "p1_y") (.ratLit (f64_as_i32 ((2 : ℚ) * 1000000)) 1000000)]

theorem scenarioC_applyLoop :
    applyLoop scenarioC scenarioC.constraints [] = (scenarioC_formulas, none) := rfl

theorem scenarioC_unsat : ¬ Satisfiable scenarioC_formulas := by
  rintro ⟨env, hsat⟩
  have hv1 : f64_as_i32 ((1 : ℚ) * 1000000) = 1000000 := by
    rw [show ((1 : ℚ) * 1000000) = ((1000000 : ℤ) : ℚ) by norm_num]
    exact f64_as_i32_intCast 1000000 (by decide) (by decide)
  have hv2 : f64_as_i32 ((2 : ℚ) * 1000000) = 2000000 := by
    rw [show ((2 : ℚ) * 1000000) = ((2000000 : ℤ) : ℚ) by norm_num]
    exact f64_as_i32_intCast 2000000 (by decide) (by decide)
  have h1 : holds env (.eq (.var "p1_x")
      (.ratLit (f64_as_i32 ((1 : ℚ) * 1000000)) 1000000)) :=
    hsat _ (by simp [scenarioC_formulas])
  have h3 : holds env (.eq (.var "p1_x")
      (.ratLit (f64_as_i32 ((2 : ℚ) * 1000000)) 1000000)) :=
    hsat _ (by simp [scenarioC_formulas])
  simp only [holds, evalExpr, hv1, hv2] at h1 h3
  norm_num at h1 h3
  rw [h1] at h3
  norm_num at h3

/-- Concrete scenario D from the spec: a non-degenerate line (endpoints fixed
at (0,0) and (1,0) meters) constrained perpendicular to itself. -/
def scenarioD : Sketch :=
  ((((((Sketch.empty.add_point (some "a")).1.add_point (some "b")).1.add_line
      ⟨⟨0, 0⟩⟩ ⟨⟨1, 0⟩⟩ (some "l")).1.add_constraint
      (.fixedPosition ⟨⟨0, 0⟩⟩ ⟨0⟩ ⟨0⟩)).add_constraint
      (.fixedPosition ⟨⟨1, 0⟩⟩ ⟨1⟩ ⟨0⟩)).add_constraint
    (.perpendicularLines ⟨⟨0, 0⟩⟩ ⟨⟨0, 0⟩⟩))

/-- Formulas asserted on the solver by scenario D's three constraints. -/
def scenarioD_formulas : List Formula :=
  [.eq (.var "a_x") (.ratLit (f64_as_i32 ((0 : ℚ) * 1000000)) 1000000),
   .eq (.var "a_y") (.ratLit (f64_as_i32 ((0 : ℚ) * 1000000)) 1000000),
   .eq (.var "b_x") (.ratLit (f64_as_i32 ((1 : ℚ) * 1000000)) 1000000),
   .eq (.var "b_y") (.ratLit (f64_as_i32 ((0 : ℚ) * 1000000)) 1000000),
   .eq (.add (.mul (.sub (.var "b_x") (.var "a_x")) (.sub (.var "b_x") (.var "a_x")))
        (.mul (.sub (.var "b_y") (.var "a_y")) (.sub (.var "b_y") (.var "a_y"))))
     (.ratLit 0 1)]

theorem scenarioD_applyLoop :
    applyLoop scenarioD scenarioD.constraints [] = (scenarioD_formulas, none) := rfl

theorem scenarioD_unsat : ¬ Satisfiable scenarioD_formulas := by
  rintro ⟨env, hsat⟩
  have hv0 : f64_as_i32 ((0 : ℚ) * 1000000) = 0 := by
    rw [show ((0 : ℚ) * 1000000) = ((0 : ℤ) : ℚ) by norm_num]
    exact f64_as_i32_intCast 0 (by decide) (by decide)
  have hv1 : f64_as_i32 ((1 : ℚ) * 1000000) = 1000000 := by
    rw [show ((1 : ℚ) * 1000000) = ((1000000 : ℤ) : ℚ) by norm_num]
    exact f64_as_i32_intCast 1000000 (by decide) (by decide)
  have h1 : holds env (.eq (.var "a_x")
      (.ratLit (f64_as_i32 ((0 : ℚ) * 1000000)) 1000000)) :=
    hsat _ (by simp [scenarioD_formulas])
  have h2 : holds env (.eq (.var "a_y")
      (.ratLit (f64_as_i32 ((0 : ℚ) * 1000000)) 1000000)) :=
    hsat _ (by simp [scenarioD_formulas])
  have h3 : holds env (.eq (.var "b_x")
      (.ratLit (f64_as_i32 ((1 : ℚ) * 1000000)) 1000000)) :=
    hsat _ (by simp [scenarioD_formulas])
  have h4 : holds env (.eq (.var "b_y")
      (.ratLit (f64_as_i32 ((0 : ℚ) * 1000000)) 1000000)) :=
    hsat _ (by simp [scenarioD_formulas])
  have h5 : holds env (.eq (.add (.mul (.sub (.var "b_x") (.var "a_x"))
        (.sub (.var "b_x") (.var "a_x")))
      (.mul (.sub (.var "b_y") (.var "a_y")) (.sub (.var "b_y") (.var "a_y"))))
      (.ratLit 0 1)) :=
    hsat _ (by simp [scenarioD_formulas])
  simp only [holds, evalExpr, hv0, hv1] at h1 h2 h3 h4 h5
  norm_num at h1 h2 h3 h4
  rw [h1, h2, h3, h4] at h5
  norm_num at h5

/-- C7: applying a Perpendicular Lines constraint asserts the single
dot-product equation `dx1·dx2 + dy1·dy2 == 0`; with both arguments the same
line the equation becomes `dx² + dy² == 0`, which is satisfied only by
assignments making the line degenerate; and in scenario D (a line with
endpoints fixed at distinct positions, constrained perpendicular to itself)
any sound, decisive external check makes `solve_and_extract` return
`OverConstrained`. -/
theorem perpendicular_lines_constraint_spec :
    (∀ (s : Sketch) (l1 l2 : LineId) (a1 b1 a2 b2 : PointId)
      (x1s y1s x1e y1e x2s y2s x2e y2e : RealExpr),
      s.line_endpoints l1 = .ok (a1, b1) →
      s.line_endpoints l2 = .ok (a2, b2) →
      s.point_variables a1 = .ok (x1s, y1s) →
      s.point_variables b1 = .ok (x1e, y1e) →
      s.point_variables a2 = .ok (x2s, y2s) →
      s.point_variables b2 = .ok (x2e, y2e) →
      applyConstraint s (.perpendicularLines l1 l2) =
        .ok [.eq (.add (.mul (.sub x1e x1s) (.sub x2e x2s))
            (.mul (.sub y1e y1s) (.sub y2e y2s))) (.ratLit 0 1)]) ∧
    (∀ (xa ya xb yb : RealExpr) (env : String → ℚ),
      holds env (.eq (.add (.mul (.sub xb xa) (.sub xb xa))
          (.mul (.sub yb ya) (.sub yb ya))) (.ratLit 0 1)) →
      evalExpr env xb = evalExpr env xa ∧ evalExpr env yb = evalExpr env ya) ∧
    (∀ (check : List Formula → SatResult) (getModel : List Formula → Option Z3Model)
      (sqrtF : ℚ → ℚ) (atan2F : ℚ → ℚ → ℚ),
      (check scenarioD_formulas = .sat → Satisfiable scenarioD_formulas) →
      check scenarioD_formulas ≠ .unknown →
      (scenarioD.solve_and_extract check getModel sqrtF atan2F).2 =
        .error .overConstrained) := by
  refine ⟨?_, ?_, ?_⟩
  · intro s l1 l2 a1 b1 a2 b2 x1s y1s x1e y1e x2s y2s x2e y2e h1 h2 ha1 hb1 ha2 hb2
    simp only [applyConstraint, h1, h2, ha1, hb1, ha2, hb2, mapErrTo]
  · intro xa ya xb yb env h
    have h' : (evalExpr env xb - evalExpr env xa) * (evalExpr env xb - evalExpr env xa) +
        (evalExpr env yb - evalExpr env ya) * (evalExpr env yb - evalExpr env ya) = 0 := by
      have h2 : evalExpr env (.add (.mul (.sub xb xa) (.sub xb xa))
          (.mul (.sub yb ya) (.sub yb ya))) = evalExpr env (.ratLit 0 1) := h
      simp only [evalExpr] at h2
      rw [h2]
      norm_num
    constructor
    · have : evalExpr env xb - evalExpr env xa = 0 := by
        nlinarith [mul_self_nonneg (evalExpr env xb - evalExpr env xa),
          mul_self_nonneg (evalExpr env yb - evalExpr env ya)]
      exact sub_eq_zero.mp this
    · have : evalExpr env yb - evalExpr env ya = 0 := by
        nlinarith [mul_self_nonneg (evalExpr env xb - evalExpr env xa),
          mul_self_nonneg (evalExpr env yb - evalExpr env ya)]
      exact sub_eq_zero.mp this
  · intro check getModel sqrtF atan2F hsound hunk
    have hassert : scenarioD.assertions = [] := rfl
    have hcheck : check (scenarioD.assertions ++ scenarioD_formulas) = .unsat := by
      rw [hassert]
      exact check_unsat_of_sound check scenarioD_formulas hsound hunk scenarioD_unsat
    exact solve_and_extract_err check getModel sqrtF atan2F scenarioD .overConstrained
      ((solve_constraints_mapped check scenarioD scenarioD_formulas
        scenarioD_applyLoop).2.1 hcheck)

/-- Witness for the C7 theorem: the dot-product equation at a concrete sketch,
degeneracy forced by the self-dot-product equation under the all-zero
assignment, and scenario D evaluated with a decisive unsat check. -/
theorem perpendicular_lines_constraint_spec_witness :
    applyConstraint twoLineSketch (.perpendicularLines ⟨⟨0, 0⟩⟩ ⟨⟨1, 0⟩⟩) =
      .ok [.eq (.add (.mul (.sub (.var "b_x") (.var "a_x"))
            (.sub (.var "d_x") (.var "c_x")))
          (.mul (.sub (.var "b_y") (.var "a_y"))
            (.sub (.var "d_y") (.var "c_y")))) (.ratLit 0 1)] ∧
    (evalExpr (fun _ => 0) (.var "b_x") = evalExpr (fun _ => 0) (.var "a_x")) ∧
    (scenarioD.solve_and_extract (fun _ => .unsat) (fun _ => none)
        (fun q => q) (fun _ _ => 0)).2 = .error .overConstrained := by
  refine ⟨?_, ?_, ?_⟩
  · exact perpendicular_lines_constraint_spec.1 twoLineSketch ⟨⟨0, 0⟩⟩ ⟨⟨1, 0⟩⟩
      ⟨⟨0, 0⟩⟩ ⟨⟨1, 0⟩⟩ ⟨⟨2, 0⟩⟩ ⟨⟨3, 0⟩⟩ (.var "a_x") (.var "a_y") (.var "b_x")
      (.var "b_y") (.var "c_x") (.var "c_y") (.var "d_x") (.var "d_y")
      rfl rfl rfl rfl rfl rfl
  · exact (perpendicular_lines_constraint_spec.2.1 (.var "a_x") (.var "a_y")
      (.var "b_x") (.var "b_y") (fun _ => 0) (by norm_num [holds, evalExpr])).1
  · exact perpendicular_lines_constraint_spec.2.2 (fun _ => .unsat) (fun _ => none)
      (fun q => q) (fun _ _ => 0) (fun h => nomatch h) (fun h => nomatch h)

/-- C1: `solve_constraints()` applies the accumulated constraints in insertion
order — a clean prefix followed by a failing constraint aborts the run and
returns that constraint's error unchanged, regardless of the constraints
after it; when every constraint applies, the external check's tri-state
result is mapped Sat ↦ `Ok(Sat)`, Unsat ↦ `OverConstrained`, Unknown ↦
`SolverError`; and in scenario C (the same point fixed at (1,1) and (2,2))
any sound, decisive external check makes `solve_and_extract` return
`OverConstrained`. -/
theorem solve_constraints_spec :
    (∀ (check : List Formula → SatResult) (s : Sketch) (pre post : List Constr)
      (c : Constr) (fss : List (List Formula)) (e : TextCadError),
      s.constraints = pre ++ c :: post →
      List.Forall₂ (fun c fs => applyConstraint s c = .ok fs) pre fss →
      applyConstraint s c = .error e →
      (s.solve_constraints check).2 = .error e) ∧
    (∀ (check : List Formula → SatResult) (s : Sketch) (fss : List (List Formula)),
      List.Forall₂ (fun c fs => applyConstraint s c = .ok fs) s.constraints fss →
      ((check (s.assertions ++ fss.flatten) = .sat →
          (s.solve_constraints check).2 = .ok .sat) ∧
       (check (s.assertions ++ fss.flatten) = .unsat →
          (s.solve_constraints check).2 = .error .overConstrained) ∧
       (check (s.assertions ++ fss.flatten) = .unknown →
          (s.solve_constraints check).2 =
            .error (.solverError "Z3 solver returned unknown result")))) ∧
    (∀ (check : List Formula → SatResult) (getModel : List Formula → Option Z3Model)
      (sqrtF : ℚ → ℚ) (atan2F : ℚ → ℚ → ℚ),
      (check scenarioC_formulas = .sat → Satisfiable scenarioC_formulas) →
      check scenarioC_formulas ≠ .unknown →
      (scenarioC.solve_and_extract check getModel sqrtF atan2F).2 =
        .error .overConstrained) := by
  refine ⟨?_, ?_, ?_⟩
  · intro check s pre post c fss e hcs hpre hc
    have happly : applyLoop s s.constraints [] = (fss.flatten, some e) := by
      rw [hcs]
      simpa using applyLoop_first_error s pre post c fss e hpre hc []
    exact solve_constraints_err check s fss.flatten e happly
  · intro check s fss hall
    have happly : applyLoop s s.constraints [] = (fss.flatten, none) := by
      simpa using applyLoop_all_ok s s.constraints fss hall []
    exact solve_constraints_mapped check s fss.flatten happly
  · intro check getModel sqrtF atan2F hsound hunk
    have hassert : scenarioC.assertions = [] := rfl
    have hcheck : check (scenarioC.assertions ++ scenarioC_formulas) = .unsat := by
      rw [hassert]
      exact check_unsat_of_sound check scenarioC_formulas hsound hunk scenarioC_unsat
    exact solve_and_extract_err check getModel sqrtF atan2F scenarioC .overConstrained
      ((solve_constraints_mapped check scenarioC scenarioC_formulas
        scenarioC_applyLoop).2.1 hcheck)

/-- Sketch whose single constraint references a point absent from the store,
used by the C1 witness. -/
def badConstraintSketch : Sketch :=
  Sketch.empty.add_constraint (.coincidentPoints ⟨⟨0, 0⟩⟩ ⟨⟨0, 0⟩⟩)

/-- Witness for the C1 theorem: a failing constraint's error is returned
unchanged, a succeeding run maps a Sat check to `Ok(Sat)`, and scenario C
with a decisive unsat check returns `OverConstrained`. -/
theorem solve_constraints_spec_witness :
    (badConstraintSketch.solve_constraints (fun _ => .sat)).2 =
      .error (.entityError
        "Point PointId(Index \x7b index: 0, generation: 0 \x7d) not found") ∧
    (scenarioC.solve_constraints (fun _ => .sat)).2 = .ok .sat ∧
    (scenarioC.solve_and_extract (fun _ => .unsat) (fun _ => none)
        (fun q => q) (fun _ _ => 0)).2 = .error .overConstrained := by
  refine ⟨?_, ?_, ?_⟩
  · exact solve_constraints_spec.1 (fun _ => .sat) badConstraintSketch [] []
      (.coincidentPoints ⟨⟨0, 0⟩⟩ ⟨⟨0, 0⟩⟩) [] _ rfl List.Forall₂.nil rfl
  · exact ((solve_constraints_spec.2.1 (fun _ => .sat) scenarioC
      [[.eq (.var "p1_x") (.ratLit (f64_as_i32 ((1 : ℚ) * 1000000)) 1000000),
        .eq (.var "p1_y") (.ratLit (f64_as_i32 ((1 : ℚ) * 1000000)) 1000000)],
       [.eq (.var "p1_x") (.ratLit (f64_as_i32 ((2 : ℚ) * 1000000)) 1000000),
        .eq (.var "p1_y") (.ratLit (f64_as_i32 ((2 : ℚ) * 1000000)) 1000000)]]
      (List.Forall₂.cons rfl (List.Forall₂.cons rfl List.Forall₂.nil))).1 rfl)
  · exact solve_constraints_spec.2.2 (fun _ => .unsat) (fun _ => none)
      (fun q => q) (fun _ _ => 0) (fun h => nomatch h) (fun h => nomatch h)
